import Mathlib

/-!
Shallow embedding of the `async_redis` package: a namespaced facade over a
key-value / pub-sub store (src/async_redis/client.py) together with a
process-wide connection-pool manager (src/async_redis/connection_manager.py).

Modelling conventions:
- The underlying store is modelled as an explicit `Store` value; each client
  method takes the store and a `fault : Bool` flag meaning that the single
  underlying store call of that method raised `RedisError`.
- Python exceptions surfaced to the caller are modelled by an
  `Option PyErr` component of each result (`none` = the method returned
  normally).
- Lock usage is recorded in an event trace: `set`/`sadd` wrap their store
  call in `async with self._lock`, which the trace shows as
  `lockAcquire`/`lockRelease` events around the store operation.
- The subscribe callback is user code; it is modelled by the small datatype
  `CbSpec` (returns normally on every payload, or raises a given exception
  on a given payload), interpreted by `runCb`.
-/

/-- Kinds of Python exception relevant to the facade. -/
inductive PyErr where
  /-- A store-level error (`RedisError`), the only kind the facade catches. -/
  | redisError
  /-- A non-store exception, e.g. raised by a user callback. -/
  | valueError
  /-- The crash from dereferencing an absent `_conn` or `_lock`. -/
  | attributeError
  deriving DecidableEq, Repr

/-- Events observable at the store boundary during one client method call. -/
inductive Event where
  | lockAcquire (key : String)
  | lockRelease (key : String)
  | storeOp (name : String)
  deriving DecidableEq, Repr

/-- Whether an event is a lock acquisition or release. -/
def Event.isLock : Event → Bool
  | .lockAcquire _ => true
  | .lockRelease _ => true
  | .storeOp _ => false

/-- Insert or replace a binding in an association list. -/
def upsert {α : Type} (l : List (String × α)) (k : String) (v : α) :
    List (String × α) :=
  match l with
  | [] => [(k, v)]
  | (k2, v2) :: rest => if k2 = k then (k, v) :: rest else (k2, v2) :: upsert rest k v

/-- The visible state of the underlying store (black box for the facade):
string keys, set keys, and the log of published channel messages. -/
structure Store where
  kv : List (String × String)
  sets : List (String × List String)
  published : List (String × String)
  deriving DecidableEq, Repr

/-- The store with no keys and no published messages. -/
def emptyStore : Store := { kv := [], sets := [], published := [] }

/-- Store-level GET: the value bound to the key, if any. -/
def Store.getVal (st : Store) (key : String) : Option String :=
  st.kv.lookup key

/-- Store-level SET: bind the key to the value (TTL is internal to the store). -/
def Store.setVal (st : Store) (key value : String) : Store :=
  { st with kv := upsert st.kv key value }

/-- Glob matching as delegated to the store; a trailing star matches any
suffix, otherwise the pattern must equal the key. -/
def globMatch (pat key : String) : Bool :=
  if pat.endsWith "*" then (pat.dropRight 1).isPrefixOf key
  else pat == key

/-- Store-level KEYS: the string keys matching the pattern. -/
def Store.keysOp (st : Store) (pat : String) : List String :=
  (st.kv.map Prod.fst).filter (globMatch pat)

/-- Add values to a member list in order, counting the newly added ones. -/
def saddList (members : List String) : List String → Nat × List String
  | [] => (0, members)
  | v :: vs =>
    if members.contains v then saddList members vs
    else
      let r := saddList (members ++ [v]) vs
      (r.fst + 1, r.snd)

/-- Store-level SADD: returns the count of newly added members and the
updated store. -/
def Store.saddOp (st : Store) (key : String) (vs : List String) : Nat × Store :=
  let cur := (st.sets.lookup key).getD []
  let r := saddList cur vs
  (r.fst, { st with sets := upsert st.sets key r.snd })

/-- Store-level PUBLISH: append the message to the channel log. -/
def Store.publishOp (st : Store) (channel message : String) : Store :=
  { st with published := st.published ++ [(channel, message)] }

/-- Connection-pool configuration, as built by
`RedisConnectionManager.__init__` (decode_responses is hardwired to True). -/
structure PoolCfg where
  host : String
  port : Nat
  db : Nat
  max_connections : Nat
  decode_responses : Bool
  deriving DecidableEq, Repr

/-- `RedisConnectionManager` (src/async_redis/connection_manager.py): holds
the `BlockingConnectionPool` reference built in `__init__`. The reference is
optional only so that the `if self.pool:` guard in `close` can be modelled. -/
structure RedisConnectionManager where
  pool : Option PoolCfg
  deriving DecidableEq, Repr

/-- The body of `RedisConnectionManager.__init__`: build the pool from the
constructor arguments, with `decode_responses=True`. -/
def RedisConnectionManager.initNew (host : String) (port db max_connections : Nat) :
    RedisConnectionManager :=
  { pool := some { host := host, port := port, db := db,
                   max_connections := max_connections, decode_responses := true } }

/-- Modelled from the spec: `SingletonMeta` lives in `src/async_redis/utils.py`,
which is not under src/. Per the spec, construction parameters are honored
only on the very first construction in the process; every later construction
silently reuses the first instance and ignores the new parameters
(first-wins singleton). `existing` is the process-wide instance slot. -/
def RedisConnectionManager.construct (existing : Option RedisConnectionManager)
    (host : String) (port db max_connections : Nat) : RedisConnectionManager :=
  match existing with
  | some inst => inst
  | none => RedisConnectionManager.initNew host port db max_connections

/-- `RedisConnectionManager.get_pool`: returns the shared pool handle. -/
def RedisConnectionManager.get_pool (m : RedisConnectionManager) : Option PoolCfg :=
  m.pool

/-- `RedisConnectionManager.close`: if the pool reference is set, disconnect
it; a `RedisError` is logged and swallowed. The pool reference is never
cleared. Returns (new manager state, whether a disconnect was attempted,
exception propagated to the caller). `fault` is the outcome of
`pool.disconnect()`. -/
def RedisConnectionManager.close (m : RedisConnectionManager) (fault : Bool) :
    RedisConnectionManager × Bool × Option PyErr :=
  match m.pool with
  | some _ => (m, true, none)
  | none => (m, false, none)

/-- `AsyncRedisClient` (src/async_redis/client.py). `nspace` is the
`namespace` field of the source (a reserved word in Lean); `pool` is the
reference obtained from the manager in `__init__`; `conn` is `_conn`;
`lock` is `_lock`, holding the lock key when present. -/
structure AsyncRedisClient where
  nspace : String
  pool : Option PoolCfg
  conn : Option Unit
  lock : Option String
  deriving DecidableEq, Repr

/-- `AsyncRedisClient.__init__`: store the namespace, fetch the pool from the
manager, and leave `_lock` and `_conn` unset. -/
def AsyncRedisClient.construct (ns : String) (mgr : RedisConnectionManager) :
    AsyncRedisClient :=
  { nspace := ns, pool := mgr.get_pool, conn := none, lock := none }

/-- `AsyncRedisClient.init`: acquire a connection from the pool and build the
namespace lock `RedisLock(conn, f-string namespace + ":lock")`. On
`RedisError` from the connection step, log and re-raise, leaving the fields
untouched. `fault` is the outcome of `await Redis(connection_pool=...)`. -/
def AsyncRedisClient.init (c : AsyncRedisClient) (fault : Bool) :
    AsyncRedisClient × Option PyErr :=
  if fault then (c, some PyErr.redisError)
  else ({ c with conn := some (), lock := some (c.nspace ++ ":lock") }, none)

/-- `AsyncRedisClient.close`: if `_conn` is set, `aclose` it (a `RedisError`
is logged and swallowed) and in a `finally` block set `_conn = None`;
`_lock` is not touched. If `_conn` is already absent, do nothing. Returns
(new client state, whether an aclose was attempted, exception propagated).
`fault` is the outcome of `conn.aclose()`. -/
def AsyncRedisClient.close (c : AsyncRedisClient) (fault : Bool) :
    AsyncRedisClient × Bool × Option PyErr :=
  match c.conn with
  | some _ => ({ c with conn := none }, true, none)
  | none => (c, false, none)

/-- `AsyncRedisClient.__aenter__`: init if `_conn` is absent, else return self. -/
def AsyncRedisClient.aenter (c : AsyncRedisClient) (fault : Bool) :
    AsyncRedisClient × Option PyErr :=
  match c.conn with
  | none => c.init fault
  | some _ => (c, none)

/-- `AsyncRedisClient.__aexit__`: if `_conn` is set, `aclose` it with no
exception handler (a `RedisError` propagates) and without clearing `_conn`.
Returns (new client state, whether an aclose was attempted, exception
propagated). `fault` is the outcome of `conn.aclose()`. -/
def AsyncRedisClient.aexit (c : AsyncRedisClient) (fault : Bool) :
    AsyncRedisClient × Bool × Option PyErr :=
  match c.conn with
  | some _ => (c, true, if fault then some PyErr.redisError else none)
  | none => (c, false, none)

/-- Result of one client method call: the value surfaced to the caller, the
store afterwards, the exception propagated (none = normal return), and the
event trace. -/
structure OpOut (α : Type) where
  result : α
  store : Store
  raised : Option PyErr
  trace : List Event
  deriving DecidableEq, Repr

/-- `AsyncRedisClient.set`: under `async with self._lock`, one store SET;
a `RedisError` is logged and swallowed; no return value. Dereferencing an
absent `_lock` crashes. -/
def AsyncRedisClient.set (c : AsyncRedisClient) (st : Store)
    (key value : String) (ex : Option Nat) (fault : Bool) : OpOut Unit :=
  match c.lock with
  | none => ⟨(), st, some PyErr.attributeError, []⟩
  | some lk =>
    if fault then
      ⟨(), st, none, [Event.lockAcquire lk, Event.storeOp "set", Event.lockRelease lk]⟩
    else
      ⟨(), st.setVal key value, none,
        [Event.lockAcquire lk, Event.storeOp "set", Event.lockRelease lk]⟩

/-- `AsyncRedisClient.get`: one store GET; on `RedisError`, log and return
None. -/
def AsyncRedisClient.get (c : AsyncRedisClient) (st : Store) (key : String)
    (fault : Bool) : OpOut (Option String) :=
  match c.conn with
  | none => ⟨none, st, some PyErr.attributeError, []⟩
  | some _ =>
    if fault then ⟨none, st, none, [Event.storeOp "get"]⟩
    else ⟨st.getVal key, st, none, [Event.storeOp "get"]⟩

/-- `AsyncRedisClient.keys`: one store KEYS; on `RedisError`, log and return
the empty list. -/
def AsyncRedisClient.keys (c : AsyncRedisClient) (st : Store) (pat : String)
    (fault : Bool) : OpOut (List String) :=
  match c.conn with
  | none => ⟨[], st, some PyErr.attributeError, []⟩
  | some _ =>
    if fault then ⟨[], st, none, [Event.storeOp "keys"]⟩
    else ⟨st.keysOp pat, st, none, [Event.storeOp "keys"]⟩

/-- `AsyncRedisClient.publish`: one store PUBLISH; on `RedisError`, log and
swallow; no return value. -/
def AsyncRedisClient.publish (c : AsyncRedisClient) (st : Store)
    (channel message : String) (fault : Bool) : OpOut Unit :=
  match c.conn with
  | none => ⟨(), st, some PyErr.attributeError, []⟩
  | some _ =>
    if fault then ⟨(), st, none, [Event.storeOp "publish"]⟩
    else ⟨(), st.publishOp channel message, none, [Event.storeOp "publish"]⟩

/-- `AsyncRedisClient.sadd`: under `async with self._lock`, one store SADD;
a `RedisError` is logged and swallowed. The source awaits `conn.sadd` but
discards the count and falls off the end of the function, so the value
surfaced to the caller is None on every path. -/
def AsyncRedisClient.sadd (c : AsyncRedisClient) (st : Store) (key : String)
    (values : List String) (fault : Bool) : OpOut (Option Nat) :=
  match c.lock with
  | none => ⟨none, st, some PyErr.attributeError, []⟩
  | some lk =>
    if fault then
      ⟨none, st, none, [Event.lockAcquire lk, Event.storeOp "sadd", Event.lockRelease lk]⟩
    else
      ⟨none, (st.saddOp key values).snd, none,
        [Event.lockAcquire lk, Event.storeOp "sadd", Event.lockRelease lk]⟩

/-- A message delivered by `pubsub.listen()`: its `type` field and its
`data` payload. -/
structure Msg where
  mtype : String
  data : String
  deriving DecidableEq, Repr

/-- Behaviour of a user callback passed to `subscribe`: either it returns
normally on every payload, or it raises a given exception on a given
payload and returns normally on the others. -/
inductive CbSpec where
  | ok
  | raisesOn (p : String) (e : PyErr)
  deriving DecidableEq, Repr

/-- Run a callback on a payload; `none` means it returned normally. -/
def runCb : CbSpec → String → Option PyErr
  | .ok, _ => none
  | .raisesOn p e, d => if d == p then some e else none

/-- Whether a callback can raise at most store errors (`RedisError`). -/
def CbSpec.storeOnly : CbSpec → Bool
  | .ok => true
  | .raisesOn _ e => e == PyErr.redisError

/-- The `async for message in pubsub.listen()` loop body of `subscribe`:
for each message whose `type` field equals "message", await the callback on
its payload before reading the next message; other messages are skipped.
Returns (payloads the callback was invoked on, exception escaping the
loop). A callback exception ends the loop at that message. -/
def subscribeLoop (cb : CbSpec) : List Msg → List String × Option PyErr
  | [] => ([], none)
  | m :: rest =>
    if m.mtype == "message" then
      match runCb cb m.data with
      | some e => ([m.data], some e)
      | none =>
        let r := subscribeLoop cb rest
        (m.data :: r.fst, r.snd)
    else subscribeLoop cb rest

/-- Result of `subscribe`: payloads the callback was invoked on, exception
propagated to the caller, and the event trace. -/
structure SubOut where
  invoked : List String
  raised : Option PyErr
  trace : List Event
  deriving DecidableEq, Repr

/-- `AsyncRedisClient.subscribe`: subscribe to the channel and run the
listen loop; the whole body sits under `except RedisError`, which logs and
swallows, so only non-`RedisError` exceptions (e.g. from the callback)
propagate. `subFault` is the outcome of `pubsub.subscribe(channel)`;
`msgs` is the message stream `pubsub.listen()` yields. -/
def AsyncRedisClient.subscribe (c : AsyncRedisClient) (channel : String)
    (cb : CbSpec) (msgs : List Msg) (subFault : Bool) : SubOut :=
  match c.conn with
  | none => { invoked := [], raised := some PyErr.attributeError, trace := [] }
  | some _ =>
    if subFault then
      { invoked := [], raised := none, trace := [Event.storeOp "subscribe"] }
    else
      let r := subscribeLoop cb msgs
      { invoked := r.fst,
        raised := match r.snd with
                  | some PyErr.redisError => none
                  | e => e,
        trace := [Event.storeOp "subscribe"] }

/-- A manager built with the default constructor arguments. -/
def mgr0 : RedisConnectionManager :=
  RedisConnectionManager.construct none "localhost" 6379 0 10

/-- A client for namespace "ns" whose lazy init has succeeded. -/
def ready0 : AsyncRedisClient :=
  ((AsyncRedisClient.construct "ns" mgr0).init false).fst

/-- A callback that can raise only store errors never makes `runCb` return a
non-store exception. -/
theorem runCb_storeOnly (cb : CbSpec) (hcb : cb.storeOnly = true) (d : String) :
    runCb cb d = none ∨ runCb cb d = some PyErr.redisError := by
  cases cb with
  | ok => exact Or.inl rfl
  | raisesOn p e =>
    simp only [CbSpec.storeOnly, beq_iff_eq] at hcb
    by_cases h : (d == p) = true
    · right
      simp [runCb, h, hcb]
    · left
      simp [runCb, h]

/-- The listen loop with a store-only callback can end only normally or with
a store error. -/
theorem subscribeLoop_storeOnly (cb : CbSpec) (hcb : cb.storeOnly = true) :
    ∀ msgs : List Msg, (subscribeLoop cb msgs).snd = none ∨
      (subscribeLoop cb msgs).snd = some PyErr.redisError
  | [] => Or.inl rfl
  | m :: rest => by
    by_cases h : (m.mtype == "message") = true
    · rcases runCb_storeOnly cb hcb m.data with hc | hc
      · have := subscribeLoop_storeOnly cb hcb rest
        simp only [subscribeLoop, h, if_pos, hc]
        simpa using this
      · simp [subscribeLoop, h, hc]
    · simp only [subscribeLoop, h]
      simpa using subscribeLoop_storeOnly cb hcb rest

/-- The listen loop with an always-returning callback invokes it on exactly
the payloads of the messages whose type is "message", in order. -/
theorem subscribeLoop_ok : ∀ msgs : List Msg,
    subscribeLoop CbSpec.ok msgs =
      ((msgs.filter (fun m => m.mtype == "message")).map Msg.data, none)
  | [] => rfl
  | m :: rest => by
    by_cases h : (m.mtype == "message") = true
    · simp [subscribeLoop, runCb, h, List.filter_cons, subscribeLoop_ok rest]
    · simp [subscribeLoop, runCb, h, List.filter_cons, subscribeLoop_ok rest]

/-- The listen loop with a callback that raises `e` on payload `p`, run on a
stream whose earlier data messages avoid `p` and which then carries a data
message with payload `p`: the callback is invoked on the earlier data
payloads and on `p`, the exception escapes the loop there, and no later
message is processed. -/
theorem subscribeLoop_raises (p : String) (e : PyErr) :
    ∀ (pre : List Msg) (m : Msg) (post : List Msg),
      pre.all (fun m2 => !(m2.mtype == "message") || !(m2.data == p)) = true →
      m.mtype = "message" → m.data = p →
      subscribeLoop (CbSpec.raisesOn p e) (pre ++ m :: post) =
        ((pre.filter (fun m2 => m2.mtype == "message")).map Msg.data ++ [p],
         some e)
  | [], m, post, _, hm, hd => by
    simp [subscribeLoop, runCb, hm, hd]
  | m2 :: pre, m, post, hpre, hm, hd => by
    simp only [List.all_cons, Bool.and_eq_true] at hpre
    obtain ⟨h2, hrest⟩ := hpre
    have ih := subscribeLoop_raises p e pre m post hrest hm hd
    by_cases ht : (m2.mtype == "message") = true
    · have hne : (m2.data == p) = false := by
        simpa [ht] using h2
      simp [subscribeLoop, runCb, ht, hne, List.filter_cons, ih]
    · simp [subscribeLoop, ht, List.filter_cons, ih]

/-- C1: the claim expects `sadd` to return the count of newly added members
(2 for two new members, 0 for a duplicate). The store-level SADD does
produce those counts, but the source method discards the awaited count and
falls off the end of the function, so the caller receives None even when
the store operation succeeds — the code contradicts its own `int` return
annotation. This theorem evaluates the model at the failing input. -/
theorem sadd_discards_count :
    (emptyStore.saddOp "s" ["x", "y"]).fst = 2 ∧
    (((emptyStore.saddOp "s" ["x", "y"]).snd).saddOp "s" ["x"]).fst = 0 ∧
    (ready0.sadd emptyStore "s" ["x", "y"] false).result = none ∧
    (ready0.sadd emptyStore "s" ["x", "y"] false).raised = none ∧
    (ready0.sadd (emptyStore.saddOp "s" ["x", "y"]).snd "s" ["x"] false).result
      = none := by
  decide

/-- C3 counterexample: after a successful init followed by `close`, the
connection is absent but the lock is still present, so the claimed
both-present-or-both-absent invariant is false after close. -/
theorem close_breaks_paired_invariant :
    (ready0.close false).fst.conn = none ∧
    (ready0.close false).fst.lock = some "ns:lock" ∧
    ¬ ((ready0.close false).fst.conn.isSome ↔
        (ready0.close false).fst.lock.isSome) := by
  decide

/-- C3 amended: after construction the connection and the lock are both
absent, and after a successful init both are present; but `close` clears
only the connection (the lock stays set), and scope exit clears neither, so
the paired invariant does not survive closing a Ready client. -/
theorem paired_invariant_amended (ns : String) (mgr : RedisConnectionManager)
    (fault : Bool) :
    (AsyncRedisClient.construct ns mgr).conn = none ∧
    (AsyncRedisClient.construct ns mgr).lock = none ∧
    ((AsyncRedisClient.construct ns mgr).init false).fst.conn = some () ∧
    ((AsyncRedisClient.construct ns mgr).init false).fst.lock
      = some (ns ++ ":lock") ∧
    ((((AsyncRedisClient.construct ns mgr).init false).fst.close fault).fst).conn
      = none ∧
    ((((AsyncRedisClient.construct ns mgr).init false).fst.close fault).fst).lock
      = some (ns ++ ":lock") ∧
    ((((AsyncRedisClient.construct ns mgr).init false).fst.aexit false).fst).conn
      = some () ∧
    ((((AsyncRedisClient.construct ns mgr).init false).fst.aexit false).fst).lock
      = some (ns ++ ":lock") := by
  simp [AsyncRedisClient.construct, AsyncRedisClient.init, AsyncRedisClient.close,
    AsyncRedisClient.aexit]

/-- C4 counterexample: exiting the scoped-acquisition block on a Ready
client releases the connection (an aclose is attempted) but does not set
the connection reference to empty. -/
theorem aexit_leaves_conn_reference_set :
    (ready0.aexit false).snd.fst = true ∧
    (ready0.aexit false).fst.conn = some () ∧
    ¬ (ready0.aexit false).fst.conn = none := by
  decide

/-- C4 amended: `close()` on a Ready client releases the connection, sets
the connection reference to empty, and does not raise; exiting the
scoped-acquisition block releases the connection but leaves the reference
set; `close()` on an already-closed client is a silent no-op that performs
no store operation, does not raise, and leaves the state unchanged. -/
theorem close_and_aexit_amended (ns : String) (mgr : RedisConnectionManager)
    (f1 f2 : Bool) :
    ((((AsyncRedisClient.construct ns mgr).init false).fst.close f1).snd).fst
      = true ∧
    ((((AsyncRedisClient.construct ns mgr).init false).fst.close f1).fst).conn
      = none ∧
    ((((AsyncRedisClient.construct ns mgr).init false).fst.close f1).snd).snd
      = none ∧
    ((((AsyncRedisClient.construct ns mgr).init false).fst.aexit false).snd).fst
      = true ∧
    ((((AsyncRedisClient.construct ns mgr).init false).fst.aexit false).fst).conn
      = some () ∧
    (((((AsyncRedisClient.construct ns mgr).init false).fst.close f1).fst).close f2)
      = (((((AsyncRedisClient.construct ns mgr).init false).fst.close f1).fst),
         false, none) := by
  simp [AsyncRedisClient.construct, AsyncRedisClient.init, AsyncRedisClient.close,
    AsyncRedisClient.aexit]

/-- C6: a failed `init` logs and re-raises the store error, and the client
state is exactly what it was before the call; in particular, on a freshly
constructed client, neither the connection nor the lock has been set. -/
theorem init_failure_leaves_uninitialized (ns : String)
    (mgr : RedisConnectionManager) (c : AsyncRedisClient) :
    (c.init true).fst = c ∧
    (c.init true).snd = some PyErr.redisError ∧
    ((AsyncRedisClient.construct ns mgr).init true).fst.conn = none ∧
    ((AsyncRedisClient.construct ns mgr).init true).fst.lock = none := by
  simp [AsyncRedisClient.init, AsyncRedisClient.construct]

/-- C8: constructing a second RedisConnectionManager after the first
returns the first instance, ignoring the new host/port/db/max-connections
arguments, so both handles share the same underlying pool. -/
theorem singleton_first_wins (h1 h2 : String) (p1 d1 x1 p2 d2 x2 : Nat) :
    RedisConnectionManager.construct
        (some (RedisConnectionManager.construct none h1 p1 d1 x1)) h2 p2 d2 x2
      = RedisConnectionManager.construct none h1 p1 d1 x1 ∧
    (RedisConnectionManager.construct
        (some (RedisConnectionManager.construct none h1 p1 d1 x1)) h2 p2 d2 x2).get_pool
      = (RedisConnectionManager.construct none h1 p1 d1 x1).get_pool := by
  exact ⟨rfl, rfl⟩

/-- C9: `RedisConnectionManager.close` attempts a disconnect but leaves the
pool reference set, so a second close attempts another disconnect; a store
error during close is swallowed, never propagated. -/
theorem manager_close_keeps_pool (host : String) (port db mx : Nat)
    (f1 f2 : Bool) :
    ((RedisConnectionManager.construct none host port db mx).close f1).fst
      = RedisConnectionManager.construct none host port db mx ∧
    (((RedisConnectionManager.construct none host port db mx).close f1).fst).pool.isSome
      = true ∧
    ((RedisConnectionManager.construct none host port db mx).close f1).snd.fst
      = true ∧
    ((((RedisConnectionManager.construct none host port db mx).close f1).fst).close f2).snd.fst
      = true ∧
    ((RedisConnectionManager.construct none host port db mx).close f1).snd.snd
      = none := by
  simp [RedisConnectionManager.construct, RedisConnectionManager.initNew,
    RedisConnectionManager.close]

/-- C2: on an initialized client, a store-level error is never propagated:
`get` returns None, `keys` returns the empty list, and `set`, `sadd`,
`publish` and `subscribe` return without raising, whatever the fault; only
a failure at init time is re-raised. -/
theorem per_operation_errors_swallowed (c : AsyncRedisClient) (st : Store)
    (k p v ch m : String) (vs : List String) (ex : Option Nat) (cb : CbSpec)
    (msgs : List Msg) (fault : Bool)
    (hconn : c.conn = some ()) (hlock : c.lock = some (c.nspace ++ ":lock"))
    (hcb : cb.storeOnly = true) :
    (c.get st k fault).raised = none ∧
    (c.get st k true).result = none ∧
    (c.keys st p fault).raised = none ∧
    (c.keys st p true).result = [] ∧
    (c.set st k v ex fault).raised = none ∧
    (c.sadd st k vs fault).raised = none ∧
    (c.publish st ch m fault).raised = none ∧
    (c.subscribe ch cb msgs fault).raised = none ∧
    (c.init true).snd = some PyErr.redisError := by
  refine ⟨?_, ?_, ?_, ?_, ?_, ?_, ?_, ?_, ?_⟩
  · cases fault <;> simp [AsyncRedisClient.get, hconn]
  · simp [AsyncRedisClient.get, hconn]
  · cases fault <;> simp [AsyncRedisClient.keys, hconn]
  · simp [AsyncRedisClient.keys, hconn]
  · cases fault <;> simp [AsyncRedisClient.set, hlock]
  · cases fault <;> simp [AsyncRedisClient.sadd, hlock]
  · cases fault <;> simp [AsyncRedisClient.publish, hconn]
  · cases fault with
    | true => simp [AsyncRedisClient.subscribe, hconn]
    | false =>
      rcases subscribeLoop_storeOnly cb hcb msgs with h | h <;>
        simp [AsyncRedisClient.subscribe, hconn, h]
  · simp [AsyncRedisClient.init]

/-- Witness for C2 at a concrete initialized client, with every store call
faulting and an always-returning callback. -/
theorem per_operation_errors_swallowed_check :
    ready0.conn = some () ∧
    ready0.lock = some (ready0.nspace ++ ":lock") ∧
    CbSpec.ok.storeOnly = true ∧
    ((ready0.get emptyStore "a" true).raised = none ∧
     (ready0.get emptyStore "a" true).result = none ∧
     (ready0.keys emptyStore "a*" true).raised = none ∧
     (ready0.keys emptyStore "a*" true).result = [] ∧
     (ready0.set emptyStore "a" "1" none true).raised = none ∧
     (ready0.sadd emptyStore "s" ["x"] true).raised = none ∧
     (ready0.publish emptyStore "c" "m" true).raised = none ∧
     (ready0.subscribe "c" CbSpec.ok [] true).raised = none ∧
     (ready0.init true).snd = some PyErr.redisError) :=
  ⟨by decide, by decide, by decide,
   per_operation_errors_swallowed ready0 emptyStore "a" "a*" "1" "c" "m" ["x"]
     none CbSpec.ok [] true (by decide) (by decide) (by decide)⟩

/-- C5: on an initialized client, `set` and `sadd` acquire the lock whose
key is exactly the namespace followed by ":lock", perform one store
operation between acquisition and release, and release the lock even when
the store operation errors; `get`, `keys`, `publish` and `subscribe`
produce no lock events at all. -/
theorem lock_discipline (c : AsyncRedisClient) (st : Store)
    (k v p ch m : String) (vs : List String) (ex : Option Nat) (cb : CbSpec)
    (msgs : List Msg) (fault : Bool)
    (hconn : c.conn = some ()) (hlock : c.lock = some (c.nspace ++ ":lock")) :
    (c.set st k v ex fault).trace =
      [Event.lockAcquire (c.nspace ++ ":lock"), Event.storeOp "set",
       Event.lockRelease (c.nspace ++ ":lock")] ∧
    (c.sadd st k vs fault).trace =
      [Event.lockAcquire (c.nspace ++ ":lock"), Event.storeOp "sadd",
       Event.lockRelease (c.nspace ++ ":lock")] ∧
    ((c.set st k v ex fault).trace.filter (fun e => ! e.isLock))
      = [Event.storeOp "set"] ∧
    ((c.sadd st k vs fault).trace.filter (fun e => ! e.isLock))
      = [Event.storeOp "sadd"] ∧
    ((c.get st k fault).trace.filter Event.isLock) = [] ∧
    ((c.keys st p fault).trace.filter Event.isLock) = [] ∧
    ((c.publish st ch m fault).trace.filter Event.isLock) = [] ∧
    ((c.subscribe ch cb msgs fault).trace.filter Event.isLock) = [] := by
  refine ⟨?_, ?_, ?_, ?_, ?_, ?_, ?_, ?_⟩
  · cases fault <;> simp [AsyncRedisClient.set, hlock]
  · cases fault <;> simp [AsyncRedisClient.sadd, hlock]
  · cases fault <;> simp [AsyncRedisClient.set, hlock, Event.isLock]
  · cases fault <;> simp [AsyncRedisClient.sadd, hlock, Event.isLock]
  · cases fault <;> simp [AsyncRedisClient.get, hconn, Event.isLock]
  · cases fault <;> simp [AsyncRedisClient.keys, hconn, Event.isLock]
  · cases fault <;> simp [AsyncRedisClient.publish, hconn, Event.isLock]
  · cases fault <;> simp [AsyncRedisClient.subscribe, hconn, Event.isLock]

/-- Witness for C5 at a concrete initialized client with a faulting store
call, checking that the lock is still released around the failed store
operation and that the read operations stay lock-free. -/
theorem lock_discipline_check :
    ready0.conn = some () ∧
    ready0.lock = some (ready0.nspace ++ ":lock") ∧
    ((ready0.set emptyStore "a" "1" none true).trace =
      [Event.lockAcquire (ready0.nspace ++ ":lock"), Event.storeOp "set",
       Event.lockRelease (ready0.nspace ++ ":lock")] ∧
     (ready0.sadd emptyStore "s" ["x"] true).trace =
      [Event.lockAcquire (ready0.nspace ++ ":lock"), Event.storeOp "sadd",
       Event.lockRelease (ready0.nspace ++ ":lock")] ∧
     ((ready0.set emptyStore "a" "1" none true).trace.filter (fun e => ! e.isLock))
       = [Event.storeOp "set"] ∧
     ((ready0.sadd emptyStore "s" ["x"] true).trace.filter (fun e => ! e.isLock))
       = [Event.storeOp "sadd"] ∧
     ((ready0.get emptyStore "a" true).trace.filter Event.isLock) = [] ∧
     ((ready0.keys emptyStore "a*" true).trace.filter Event.isLock) = [] ∧
     ((ready0.publish emptyStore "c" "m" true).trace.filter Event.isLock) = [] ∧
     ((ready0.subscribe "c" CbSpec.ok [] true).trace.filter Event.isLock) = []) :=
  ⟨by decide, by decide,
   lock_discipline ready0 emptyStore "a" "1" "a*" "c" "m" ["x"] none CbSpec.ok
     [] true (by decide) (by decide)⟩

/-- C7: on an initialized client, with a callback that completes on every
payload, `subscribe` invokes the callback exactly on the payloads of the
messages whose type is "message" (control messages such as subscription
confirmations never trigger it), sequentially and in arrival order, each
invocation completing before the next message is read, and the call
returns without raising. -/
theorem subscribe_filters_and_orders (c : AsyncRedisClient) (ch : String)
    (msgs : List Msg) (hconn : c.conn = some ()) :
    (c.subscribe ch CbSpec.ok msgs false).invoked =
      (msgs.filter (fun m => m.mtype == "message")).map Msg.data ∧
    (c.subscribe ch CbSpec.ok msgs false).raised = none := by
  simp [AsyncRedisClient.subscribe, hconn, subscribeLoop_ok msgs]

/-- The message stream used by the C7 witness: a subscription confirmation,
two data messages, and another control message in between. -/
def msgsW : List Msg :=
  [⟨"subscribe", "1"⟩, ⟨"message", "x"⟩, ⟨"psubscribe", "z"⟩, ⟨"message", "y"⟩]

/-- Witness for C7 on a concrete stream: only the two data payloads reach
the callback, in order. -/
theorem subscribe_filters_and_orders_check :
    ready0.conn = some () ∧
    ((ready0.subscribe "c" CbSpec.ok msgsW false).invoked =
      (msgsW.filter (fun m => m.mtype == "message")).map Msg.data ∧
     (ready0.subscribe "c" CbSpec.ok msgsW false).raised = none) :=
  ⟨by decide, subscribe_filters_and_orders ready0 "c" msgsW (by decide)⟩

/-- C10: on an initialized client, if the callback raises a non-store
exception on the payload of some data message (earlier data messages not
triggering it), `subscribe` does not catch it: the exception propagates to
the caller and the callback is invoked only on the earlier data payloads
and the offending one — no later message is delivered. -/
theorem callback_error_propagates (c : AsyncRedisClient) (ch p : String)
    (pre post : List Msg) (m : Msg)
    (hconn : c.conn = some ())
    (hpre : pre.all (fun m2 => !(m2.mtype == "message") || !(m2.data == p)) = true)
    (hm : m.mtype = "message") (hd : m.data = p) :
    (c.subscribe ch (CbSpec.raisesOn p PyErr.valueError)
        (pre ++ m :: post) false).raised = some PyErr.valueError ∧
    (c.subscribe ch (CbSpec.raisesOn p PyErr.valueError)
        (pre ++ m :: post) false).invoked =
      (pre.filter (fun m2 => m2.mtype == "message")).map Msg.data ++ [p] := by
  simp [AsyncRedisClient.subscribe, hconn,
    subscribeLoop_raises p PyErr.valueError pre m post hpre hm hd]

/-- The messages before the offending one in the C10 witness. -/
def preW : List Msg := [⟨"subscribe", "1"⟩, ⟨"message", "a"⟩]

/-- The messages after the offending one in the C10 witness. -/
def postW : List Msg := [⟨"message", "b"⟩]

/-- Witness for C10 on a concrete stream: the callback exception on payload
"boom" propagates, and the message after it is never delivered. -/
theorem callback_error_propagates_check :
    ready0.conn = some () ∧
    preW.all (fun m2 => !(m2.mtype == "message") || !(m2.data == "boom")) = true ∧
    (Msg.mk "message" "boom").mtype = "message" ∧
    (Msg.mk "message" "boom").data = "boom" ∧
    ((ready0.subscribe "c" (CbSpec.raisesOn "boom" PyErr.valueError)
        (preW ++ Msg.mk "message" "boom" :: postW) false).raised
      = some PyErr.valueError ∧
     (ready0.subscribe "c" (CbSpec.raisesOn "boom" PyErr.valueError)
        (preW ++ Msg.mk "message" "boom" :: postW) false).invoked =
      (preW.filter (fun m2 => m2.mtype == "message")).map Msg.data ++ ["boom"]) :=
  ⟨by decide, by decide, rfl, rfl,
   callback_error_propagates ready0 "c" "boom" preW postW (Msg.mk "message" "boom")
     (by decide) (by decide) rfl rfl⟩
